import Mathlib

/-!
Verification of the conversation-orchestration pipeline of the `donna`
repository (an iMessage assistant bot gated by a subscription flow).

The development shallowly embeds the two code trees referenced by the
claims:

* `Donna.*` — the `donna/` tree: `donna/database/models.py` (the sqlite
  persistence layer), `donna/server/handlers.py` (`PostHandler.handle_new_message`
  and `PostHandler.process_message_with_alfred`), and
  `donna/assistant/openai_client.py` (`create_assistant_response`).
* `Alfred.*` — the `src/` tree: `src/modules/memory.py` (extraction and
  pruning), `src/modules/message_handler.py` (`process_message_with_alfred`)
  and `src/modules/integrations/base.py` / `__init__.py` (the capability
  registry).

External collaborators (the BlueBubbles send API, the OpenAI client, the
LLM provider, `json.loads`) are modelled by their outcomes, supplied as
explicit environment parameters; the control flow around them is translated
from the source.
-/

/-- Python `str.strip()` on the underlying character list (leading and
trailing whitespace removed). -/
def stripChars (l : List Char) : List Char :=
  (((l.dropWhile Char.isWhitespace).reverse).dropWhile Char.isWhitespace).reverse

/-- Python `str.strip()`. -/
def pyStrip (s : String) : String := String.mk (stripChars s.data)

/-- Python `needle in hay` substring containment. -/
def containsSub (hay needle : String) : Bool :=
  (List.range (hay.data.length + 1)).any
    (fun i => ((hay.data.drop i).take needle.data.length) == needle.data)

/-- Python `str.lower()`. -/
def pyLower (s : String) : String := String.mk (s.data.map Char.toLower)

namespace Donna

/-- A row of the `messages` table (`donna/database/models.py`, `init_db`):
`chat_guid`, `sender`, `message` body, and the `UNIQUE message_guid`. -/
structure Message where
  chat_guid : String
  sender : String
  body : String
  message_guid : String
deriving Repr, DecidableEq

/-- Database state: the `messages` table in insertion order, the
`conversations` table (`chat_guid` primary key ↦ `thread_id`), and the
`subscriptions` table (identity ↦ status).  The python code keys
subscriptions by either a phone number (a string starting with `+`) or an
email; the two key spaces are disjoint strings, so a single association
list over the raw identity string is faithful. -/
structure DB where
  messages : List Message
  threads : List (String × String)
  subs : List (String × String)
deriving Repr, DecidableEq

/-- `get_total_message_count`: `SELECT COUNT(*) FROM messages WHERE chat_guid = ?`.
Counts every message in the conversation, regardless of sender. -/
def getTotalMessageCount (db : DB) (chat : String) : Nat :=
  (db.messages.filter (fun m => m.chat_guid == chat)).length

/-- Number of bot-authored messages in a conversation (sender
`alfred@gtfol.inc`).  This is the quantity the spec calls the free-tier
counter; the code never computes it. -/
def getBotMessageCount (db : DB) (chat : String) : Nat :=
  (db.messages.filter (fun m => m.chat_guid == chat && m.sender == "alfred@gtfol.inc")).length

/-- Does a message with this guid already exist?  (The `UNIQUE` constraint
on `message_guid`.) -/
def guidExists (db : DB) (guid : String) : Bool :=
  db.messages.any (fun m => m.message_guid == guid)

/-- Number of stored rows carrying a given `message_guid`. -/
def countByGuid (db : DB) (guid : String) : Nat :=
  (db.messages.filter (fun m => m.message_guid == guid)).length

/-- `save_message`: a plain `INSERT INTO messages ...`.  The table declares
`message_guid TEXT UNIQUE`, so inserting a duplicate guid raises
`sqlite3.IntegrityError`; there is no `OR IGNORE` and no prior existence
check. -/
def saveMessage (db : DB) (chat sender body guid : String) : Except String DB :=
  if guidExists db guid then
    Except.error "IntegrityError"
  else
    Except.ok { db with messages := db.messages ++ [⟨chat, sender, body, guid⟩] }

/-- `get_message_by_guid`: first row with the guid, as `(sender, message)`. -/
def getMessageByGuid (db : DB) (guid : String) : Option (String × String) :=
  (db.messages.find? (fun m => m.message_guid == guid)).map (fun m => (m.sender, m.body))

/-- `get_thread_id`: `SELECT thread_id FROM conversations WHERE chat_guid = ?`. -/
def getThreadId (db : DB) (chat : String) : Option String :=
  (db.threads.find? (fun p => p.1 == chat)).map (fun p => p.2)

/-- `save_thread_id`: `INSERT OR REPLACE INTO conversations` keyed by the
`chat_guid` primary key — replaces the row in place, or appends a new one. -/
def saveThreadId (db : DB) (chat tid : String) : DB :=
  if db.threads.any (fun p => p.1 == chat) then
    { db with threads := db.threads.map (fun p => if p.1 == chat then (chat, tid) else p) }
  else
    { db with threads := db.threads ++ [(chat, tid)] }

/-- `check_subscription_status`: returns the stored status string for the
identity, or `none` when no identity is known / no row exists. -/
def checkSubscriptionStatus (db : DB) (identity : Option String) : Option String :=
  match identity with
  | none => none
  | some id => (db.subs.find? (fun p => p.1 == id)).map (fun p => p.2)

/-- Operator configuration (`donna/config.py`): the two secret codes and
the canned message texts.  The texts are opaque strings loaded from the
environment / built from the Stripe payment link. -/
structure Config where
  activationCode : String
  deactivationCode : String
  welcomeMessage : String
  paymentMessage : String
  expiredMessage : String
  activationMessage : String
  deactivationMessage : String
  stripePaymentLink : String
deriving Repr, DecidableEq

/-- The fields `handle_new_message` extracts from a `new-message` webhook
payload.  `senderAddress` is `data.handle.address` defaulted to
`"Unknown"`; attachments play no role in any claim and are omitted
(`file_id` is `None` for text messages). -/
structure Inbound where
  chat_guid : String
  text : String
  isFromMe : Bool
  senderAddress : String
  message_guid : String
deriving Repr, DecidableEq

/-- Observable side effects of a turn towards the outside world. -/
inductive Effect where
  | shareContactCard (chat : String)
  | sendText (chat body : String) (providerGuid : Option String)
  | assistantCall (chat text : String)
deriving Repr, DecidableEq

/-- How the handler's python frame exits: normally, or by an exception
propagating out of `handle_new_message` (the surrounding `do_POST` only
catches `ValueError`, so both exceptions below surface as a server
error, not a 2xx). -/
inductive Outcome where
  | ok
  | nameError
  | integrityError
deriving Repr, DecidableEq

/-- Result of one delivery: final database, emitted effects in order, and
how the frame exited. -/
structure HResult where
  db : DB
  effects : List Effect
  outcome : Outcome
deriving Repr, DecidableEq

/-- Environment of one turn: the provider message guids returned by
successive `send_text` calls (`none` = send failed), the remote thread id
`threads.create()` would mint, whether the assistant call succeeds, and the
assistant's reply text on success. -/
structure Env where
  sendResults : List (Option String)
  newThreadId : String
  assistantOk : Bool
  assistantReply : String
deriving Repr, DecidableEq

/-- Pop the next `send_text` result from the environment. -/
def takeSend : List (Option String) → Option String × List (Option String)
  | [] => (none, [])
  | r :: rest => (r, rest)

/-- The fallback apology returned by `create_assistant_response`'s
catch-all `except` clause. -/
def APOLOGY : String := "I'm sorry, I encountered an error while processing your message."

/-- Database effect and return value of `create_assistant_response` as seen
by the handler: if the conversation has no thread, a fresh remote thread is
created and persisted; the reply is the assistant's text, or the apology
when the call fails.  (The remote-operation trace and the poll loop are
modelled in detail below for the thread-continuity and termination
claims.) -/
def assistantCallModel (env : Env) (db : DB) (chat : String) : DB × String :=
  let db1 := if (getThreadId db chat).isSome then db else saveThreadId db chat env.newThreadId
  (db1, if env.assistantOk then env.assistantReply else APOLOGY)

/-- `PostHandler.send_welcome_message`: share the contact card, send the
welcome text, and persist it as an outbound message when the provider
returned a guid. -/
def sendWelcomeMessage (cfg : Config) (db : DB) (chat : String)
    (sends : List (Option String)) : HResult :=
  let (g, _) := takeSend sends
  let effs := [Effect.shareContactCard chat, Effect.sendText chat cfg.welcomeMessage g]
  match g with
  | none => ⟨db, effs, Outcome.ok⟩
  | some guid =>
    match saveMessage db chat "alfred@gtfol.inc" cfg.welcomeMessage guid with
    | Except.error _ => ⟨db, effs, Outcome.integrityError⟩
    | Except.ok db2 => ⟨db2, effs, Outcome.ok⟩

/-- `PostHandler.process_message_with_alfred` (`donna/server/handlers.py`):
first message short-circuits to the welcome flow; otherwise call the
assistant, send its reply, and persist the reply unless it contains the
Stripe payment link. -/
def processMessageWithAlfred (cfg : Config) (env : Env) (db : DB) (m : Inbound)
    (isFirst : Bool) : HResult :=
  if isFirst then
    sendWelcomeMessage cfg db m.chat_guid env.sendResults
  else
    let (db1, reply) := assistantCallModel env db m.chat_guid
    let (g, _) := takeSend env.sendResults
    let effs := [Effect.assistantCall m.chat_guid m.text,
                 Effect.sendText m.chat_guid reply g]
    match g with
    | none => ⟨db1, effs, Outcome.ok⟩
    | some guid =>
      if containsSub reply cfg.stripePaymentLink then
        ⟨db1, effs, Outcome.ok⟩
      else
        match saveMessage db1 m.chat_guid "alfred@gtfol.inc" reply guid with
        | Except.error _ => ⟨db1, effs, Outcome.integrityError⟩
        | Except.ok db2 => ⟨db2, effs, Outcome.ok⟩

/-- The identity used for the subscription lookup: for a message not from
the bot with a known sender, the raw address (the code splits it into a
phone number or an email by the leading `+`; the two columns are queried
with the same raw string, so a single key is faithful). -/
def identityOf (m : Inbound) : Option String :=
  if m.isFromMe then none
  else if m.senderAddress == "Unknown" then none
  else some m.senderAddress

/-- `PostHandler.handle_new_message` (`donna/server/handlers.py`), for a
`new-message` event with a non-empty chat list.  Control flow translated
line by line:

1. messages from the bot itself are ignored;
2. `is_first_message` is computed before the inbound save;
3. the inbound message is saved (a duplicate guid raises
   `IntegrityError`, which propagates — only `ValueError` is caught);
4. the two secret-code branches run next; they call
   `save_user_subscription`, a name `handlers.py` never imports, so in
   this tree reaching either branch raises `NameError` before anything
   else happens;
5. otherwise the gate: `active` → process; `expired` → send the expired
   notice (never persisted); total message count ≥ 30 → send the payment
   prompt (never persisted); else → process. -/
def handleNewMessage (cfg : Config) (env : Env) (db : DB) (m : Inbound) : HResult :=
  if m.isFromMe then ⟨db, [], Outcome.ok⟩
  else
    let sender := m.senderAddress
    let isFirst := getTotalMessageCount db m.chat_guid == 0
    match saveMessage db m.chat_guid sender m.text m.message_guid with
    | Except.error _ => ⟨db, [], Outcome.integrityError⟩
    | Except.ok db1 =>
      if pyStrip m.text == cfg.activationCode then
        ⟨db1, [], Outcome.nameError⟩
      else if pyStrip m.text == cfg.deactivationCode then
        ⟨db1, [], Outcome.nameError⟩
      else
        let alfredMessageCount := getTotalMessageCount db1 m.chat_guid
        let status := checkSubscriptionStatus db1 (identityOf m)
        if status == some "active" then
          processMessageWithAlfred cfg env db1 m isFirst
        else if status == some "expired" then
          let (g, _) := takeSend env.sendResults
          ⟨db1, [Effect.sendText m.chat_guid cfg.expiredMessage g], Outcome.ok⟩
        else if 30 ≤ alfredMessageCount then
          let (g, _) := takeSend env.sendResults
          ⟨db1, [Effect.sendText m.chat_guid cfg.paymentMessage g], Outcome.ok⟩
        else
          processMessageWithAlfred cfg env db1 m isFirst

/-- Remote operations issued by `create_assistant_response`
(`donna/assistant/openai_client.py`), in program order. -/
inductive RemoteOp where
  | retrieveThread (tid : String)
  | createThread (tid : String)
  | saveThreadLocal (chat tid : String)
  | createMessage (tid : String)
  | createRun (tid : String)
deriving Repr, DecidableEq

/-- The thread-handling part of `create_assistant_response`, up to and
including starting the run (lines 49–92): returns the updated database,
the trace of operations in the order the code performs them, and the
thread id the turn uses.  `newTid` is the id a `threads.create()` call
would return. -/
def assistantThreadTurn (db : DB) (chat : String) (newTid : String) :
    DB × List RemoteOp × String :=
  match getThreadId db chat with
  | some tid =>
    (db, [RemoteOp.retrieveThread tid, RemoteOp.createMessage tid, RemoteOp.createRun tid], tid)
  | none =>
    let db1 := saveThreadId db chat newTid
    (db1, [RemoteOp.createThread newTid, RemoteOp.saveThreadLocal chat newTid,
           RemoteOp.createMessage newTid, RemoteOp.createRun newTid], newTid)

/-- The run-status poll loop of `create_assistant_response` (lines 94–99):

    while run.status != "completed":
        run = ...retrieve(...)
        sleep(1)

`statuses n` is the status observed at the n-th check (`statuses 0` from
the initial `runs.create`, later ones from `runs.retrieve`).  The fuelled
searcher returns the first index at which the status is `"completed"`, if
one occurs within `fuel` checks; the loop itself has no timeout and no
iteration bound, so its termination is exactly the existence of such an
index. -/
def pollLoop : Nat → (Nat → String) → Option Nat
  | 0, _ => none
  | fuel + 1, statuses =>
    if statuses 0 == "completed" then some 0
    else (pollLoop fuel (fun n => statuses (n + 1))).map (· + 1)

/-- The poll loop terminates on a given status sequence. -/
def pollTerminates (statuses : Nat → String) : Prop :=
  ∃ fuel, (pollLoop fuel statuses).isSome

/-- A run that reports `"failed"` at every check, as a terminal remote
status would. -/
def constFailed : Nat → String := fun _ => "failed"

end Donna

namespace Alfred

/-- A memory write as performed by `save_memory` in `src/modules/memory.py`:
a `(memory_type, content)` pair appended to the `memory` table. -/
abbrev MemWrite := String × String

/-- The sentiment object the code reads out of the model's JSON reply.
Missing keys are folded into the parse abstraction: `sentiment` and
`emotion` are read with `.get(...)` defaults, `intensity` with
`.get("intensity", 0)`. -/
structure SentimentData where
  sentiment : String
  emotion : String
  intensity : Int
deriving Repr, DecidableEq

/-- The fallback dictionary `analyze_user_sentiment` substitutes when
`json.loads` fails on the model's reply. -/
def fallbackSentiment : SentimentData :=
  ⟨"neutral", "unknown", 2⟩

/-- Opaque serialization standing for `json.dumps(sentiment_data)`; the
content is opaque text to every consumer in scope. -/
def encodeSentiment (d : SentimentData) : String :=
  "sentiment=" ++ d.sentiment ++ ";emotion=" ++ d.emotion ++ ";intensity=" ++ toString d.intensity

/-- The `important_note` text written on strong negative sentiment
(`now` stands for the formatted `datetime.now(timezone.utc)`). -/
def negativeNote (emotion now : String) : String :=
  "User expressed strong negative emotion (" ++ emotion ++ ") on " ++ now ++ "."

/-- `analyze_user_sentiment` (`src/modules/memory.py`, lines 188–236).
`llm` is the outcome of `model_provider.generate_response` (`Except.error`
= the call raised), `parse` is `json.loads` restricted to the expected
shape (`none` = `json.JSONDecodeError`).  The whole body sits in a
`try/except` that only prints, so the function never propagates an
exception; the result is the list of `save_memory` writes it performs. -/
def analyzeUserSentiment (llm : Except Unit String)
    (parse : String → Option SentimentData) (now : String) (msg : String) :
    Except Unit (List MemWrite) :=
  if msg.data.length < 10 then Except.ok []
  else
    match llm with
    | Except.error _ => Except.ok []
    | Except.ok resp =>
      let data := (parse resp).getD fallbackSentiment
      Except.ok
        ([("sentiment", encodeSentiment data)] ++
          (if data.sentiment == "negative" && 4 ≤ data.intensity then
            [("important_note", negativeNote data.emotion now)]
          else []))

/-- `extract_entities` (`src/modules/memory.py`, lines 265–299).  `parse`
abstracts `json.loads` producing a JSON array of objects (lists of
key/value pairs); `none` covers both a decode error and a reply that is
not a list (both paths save nothing). -/
def extractEntities (llm : Except Unit String)
    (parse : String → Option (List (List (String × String)))) (msg : String) :
    Except Unit (List MemWrite) :=
  if msg.data.length ≤ 50 then Except.ok []
  else
    match llm with
    | Except.error _ => Except.ok []
    | Except.ok resp =>
      match parse resp with
      | none => Except.ok []
      | some entities =>
        if 0 < entities.length then
          Except.ok ((entities.map (fun e => e.map (fun kv => ("entity_" ++ kv.1, kv.2)))).flatten)
        else Except.ok []

/-- The keyword gate of `extract_user_preferences`. -/
def preferenceKeywords : List String :=
  ["prefer", "like", "don't like", "hate", "love", "favorite"]

/-- `extract_user_preferences` (`src/modules/memory.py`, lines 238–263):
gated on a preference keyword occurring in the lower-cased message; the
model's raw reply is saved unless it is (case-insensitively) `"none"`. -/
def extractUserPreferences (llm : Except Unit String) (msg : String) :
    Except Unit (List MemWrite) :=
  if !(preferenceKeywords.any (fun k => containsSub (pyLower msg) k)) then Except.ok []
  else
    match llm with
    | Except.error _ => Except.ok []
    | Except.ok pref =>
      if pyLower pref != "none" then Except.ok [("user_preference", pref)]
      else Except.ok []

/-- `create_conversation_summary` (`src/modules/memory.py`, lines 97–131):
no write when the conversation history is empty or the provider call
raises; otherwise one `summary` record holding the model's reply. -/
def createConversationSummary (llm : Except Unit String)
    (historyNonempty : Bool) : Except Unit (List MemWrite) :=
  if !historyNonempty then Except.ok []
  else
    match llm with
    | Except.error _ => Except.ok []
    | Except.ok s => Except.ok [("summary", s)]

/-- A row of the `memory` table: integer primary key, owning chat, type,
opaque content, insert timestamp. -/
structure MemRow where
  id : Nat
  chat_guid : String
  mtype : String
  content : String
  ts : Nat
deriving Repr, DecidableEq

/-- `SELECT DISTINCT memory_type FROM memory WHERE chat_guid = ?`. -/
def distinctTypes (rows : List MemRow) (chat : String) : List String :=
  ((rows.filter (fun r => r.chat_guid == chat)).map (fun r => r.mtype)).dedup

/-- Insert a row into a list kept sorted by decreasing timestamp. -/
def insertByTs (r : MemRow) : List MemRow → List MemRow
  | [] => [r]
  | x :: xs => if x.ts ≤ r.ts then r :: x :: xs else x :: insertByTs r xs

/-- Sort rows by decreasing timestamp (`ORDER BY timestamp DESC`). -/
def sortByTsDesc : List MemRow → List MemRow
  | [] => []
  | x :: xs => insertByTs x (sortByTsDesc xs)

/-- The ids the subquery `SELECT id ... ORDER BY timestamp DESC LIMIT k`
keeps for one chat and memory type. -/
def keptIds (rows : List MemRow) (chat t : String) (k : Nat) : List Nat :=
  ((sortByTsDesc (rows.filter (fun r => r.chat_guid == chat && r.mtype == t))).take k).map
    (fun r => r.id)

/-- The per-type keep limit of `clean_up_memories`: 5 for `summary`,
`max_memories // len(memory_types)` for every other type. -/
def keepLimit (maxMemories numTypes : Nat) (t : String) : Nat :=
  if t == "summary" then 5 else maxMemories / numTypes

/-- `clean_up_memories` (`src/modules/memory.py`, lines 133–186).  The
python code loops over the distinct types of the chat and, per type,
deletes every row of that chat and type whose id is not in the type's
keep list.  Deletions for one type never touch rows of another type, and
`len(memory_types)` is read before any deletion, so the sequential loop
equals this one-pass filter. -/
def cleanUpMemories (rows : List MemRow) (chat : String) (maxMemories : Nat := 50) :
    List MemRow :=
  let numTypes := (distinctTypes rows chat).length
  rows.filter (fun r =>
    if r.chat_guid == chat then
      (keptIds rows chat r.mtype (keepLimit maxMemories numTypes r.mtype)).contains r.id
    else true)

/-- Rows of one chat and type, as stored. -/
def rowsOfType (rows : List MemRow) (chat t : String) : List MemRow :=
  rows.filter (fun r => r.chat_guid == chat && r.mtype == t)

/-- Persistent state of the `src/` tree (`src/modules/database.py`):
the `messages` table, the `memory` table, and the `threads` table.
`nextMemId` is the memory autoincrement key; `clock` orders the
`CURRENT_TIMESTAMP` defaults of successive inserts. -/
structure Store where
  messages : List Donna.Message
  memory : List MemRow
  threads : List (String × String)
  nextMemId : Nat
  clock : Nat
deriving Repr, DecidableEq

/-- `save_message` in `src/modules/database.py`: `INSERT OR IGNORE`, so a
duplicate `message_guid` is a silent no-op in this tree. -/
def storeSaveMessage (st : Store) (chat sender body guid : String) : Store :=
  if st.messages.any (fun m => m.message_guid == guid) then st
  else { st with messages := st.messages ++ [⟨chat, sender, body, guid⟩] }

/-- `get_total_message_count` over the `src/` tree store. -/
def countMessages (st : Store) (chat : String) : Nat :=
  (st.messages.filter (fun m => m.chat_guid == chat)).length

/-- `save_memory`: append one memory row with a fresh id and timestamp. -/
def saveMemoryRow (st : Store) (chat mtype content : String) : Store :=
  { st with
      memory := st.memory ++ [⟨st.nextMemId, chat, mtype, content, st.clock⟩],
      nextMemId := st.nextMemId + 1,
      clock := st.clock + 1 }

/-- Perform a batch of `save_memory` writes in order. -/
def saveMemories (st : Store) (chat : String) : List MemWrite → Store
  | [] => st
  | (t, c) :: ws => saveMemories (saveMemoryRow st chat t c) chat ws

/-- The extraction helpers always return `Except.ok` (their bodies are
wrapped in catch-all `try/except`); the handler consumes the write list. -/
def extractWrites (e : Except Unit (List MemWrite)) : List MemWrite :=
  match e with
  | Except.ok ws => ws
  | Except.error _ => []

/-- Environment of one `src/`-tree turn: outcomes of the provider sends,
the four LLM extraction calls and their JSON parses, the assistant run,
and the formatted current time. -/
structure AEnv where
  sendResults : List (Option String)
  llmSentiment : Except Unit String
  parseSentiment : String → Option SentimentData
  llmEntities : Except Unit String
  parseEntities : String → Option (List (List (String × String)))
  llmPreference : Except Unit String
  llmSummary : Except Unit String
  assistantOk : Bool
  assistantReply : String
  newThreadId : String
  stripePaymentLink : String
  now : String

/-- The `WELCOME_MESSAGE` literal of `src/modules/message_handler.py`
(text abbreviated; every claim treats it as opaque). -/
def WELCOME_MESSAGE : String := "Hello! I am Alfred, your AI assistant."

/-- The initial summary seeded for a brand-new conversation
(`process_message_with_alfred`, lines 49–51). -/
def initialSummary (now : String) : String :=
  "New conversation started on " ++ now ++ "."

/-- Result of one `src/`-tree turn: final store, effects, and whether
`clean_up_memories` ran. -/
structure AResult where
  store : Store
  effects : List Donna.Effect
  pruned : Bool
deriving Repr, DecidableEq

/-- `send_welcome_message` (`src/modules/message_handler.py`): share the
contact card, send the welcome text, persist it when the provider
returned a guid. -/
def alfredSendWelcome (st : Store) (chat : String) (sends : List (Option String)) :
    Store × List Donna.Effect :=
  let (g, _) := Donna.takeSend sends
  let effs := [Donna.Effect.shareContactCard chat,
               Donna.Effect.sendText chat WELCOME_MESSAGE g]
  match g with
  | none => (st, effs)
  | some guid => (storeSaveMessage st chat "alfred@gtfol.inc" WELCOME_MESSAGE guid, effs)

/-- `create_alfred_response` (`src/modules/message_handler.py`, lines
156–311) as seen by the handler: ensure the conversation's thread exists
(persisting a fresh id before any content goes out), run the assistant,
and — on success only — write a periodic summary when the total message
count is a multiple of 10.  On failure the catch-all returns the apology
and the summary step is never reached. -/
def createAlfredResponse (env : AEnv) (st : Store) (chat : String) :
    Store × String :=
  let st1 :=
    if (st.threads.find? (fun p => p.1 == chat)).isSome then st
    else { st with threads := st.threads ++ [(chat, env.newThreadId)] }
  if env.assistantOk then
    let st2 :=
      if countMessages st1 chat % 10 == 0 then
        saveMemories st1 chat
          (extractWrites (createConversationSummary env.llmSummary (countMessages st1 chat != 0)))
      else st1
    (st2, env.assistantReply)
  else
    (st1, Donna.APOLOGY)

/-- `process_message_with_alfred` (`src/modules/message_handler.py`,
lines 37–97).  First message: welcome flow plus exactly one seeded
`summary` memory, nothing else.  Otherwise: sentiment / entity /
preference extraction, the assistant call, dispatch and conditional save
of the reply, and — last — `clean_up_memories` when the total message
count is a multiple of 50. -/
def processMessageAlfred (env : AEnv) (st : Store) (chat messageText : String) (isFirst : Bool) :
    AResult :=
  if isFirst then
    let (st1, effs) := alfredSendWelcome st chat env.sendResults
    let st2 := saveMemoryRow st1 chat "summary" (initialSummary env.now)
    ⟨st2, effs, false⟩
  else
    let st1 :=
      if 10 ≤ messageText.data.length then
        saveMemories st chat
          (extractWrites (analyzeUserSentiment env.llmSentiment env.parseSentiment env.now messageText))
      else st
    let st2 := saveMemories st1 chat
      (extractWrites (extractEntities env.llmEntities env.parseEntities messageText))
    let st3 := saveMemories st2 chat
      (extractWrites (extractUserPreferences env.llmPreference messageText))
    let (st4, reply) := createAlfredResponse env st3 chat
    let (g, _) := Donna.takeSend env.sendResults
    let effs := [Donna.Effect.assistantCall chat messageText,
                 Donna.Effect.sendText chat reply g]
    let st5 :=
      match g with
      | none => st4
      | some guid =>
        if containsSub reply env.stripePaymentLink then st4
        else storeSaveMessage st4 chat "alfred@gtfol.inc" reply guid
    if countMessages st5 chat % 50 == 0 then
      ⟨{ st5 with memory := cleanUpMemories st5.memory chat }, effs, true⟩
    else
      ⟨st5, effs, false⟩

/-- A capability module as the registry sees it
(`src/modules/integrations/base.py`): a name, `can_handle`, and
`process`. -/
structure Integration where
  name : String
  canHandle : String → Bool
  processFn : String → String → String

/-- `IntegrationRegistry.register`: the registry is a python dict keyed by
`get_name()`; inserting an existing key overwrites the value but keeps the
key's original position, a fresh key is appended. -/
def registerIntegration (reg : List Integration) (i : Integration) : List Integration :=
  if reg.any (fun j => j.name == i.name) then
    reg.map (fun j => if j.name == i.name then i else j)
  else
    reg ++ [i]

/-- Build a registry by registering modules in order, starting empty
(`src/modules/integrations/__init__.py`). -/
def buildRegistry (is : List Integration) : List Integration :=
  is.foldl registerIntegration []

/-- `IntegrationRegistry.find_integration_for_message`: iterate the
registered modules in dict order and return the first whose `can_handle`
is true. -/
def findIntegrationForMessage (reg : List Integration) (msg : String) : Option Integration :=
  reg.find? (fun i => i.canHandle msg)

/-- `IntegrationRegistry.process_message`: the first capable module's
`process` result, or `none` when no module matches (the caller then falls
through to the assistant path). -/
def registryProcessMessage (reg : List Integration) (userId msg : String) : Option String :=
  (findIntegrationForMessage reg msg).map (fun i => i.processFn userId msg)

end Alfred

namespace Scenario

/-- Concrete operator configuration used by the evaluation scenarios. -/
def cfg : Donna.Config :=
  ⟨"open-sesame", "close-sesame", "WELCOME", "PAYMENT", "EXPIRED",
   "ACTIVATED", "DEACTIVATED", "stripe.link/pay"⟩

/-- Concrete environment: both sends succeed, the assistant answers. -/
def env : Donna.Env := ⟨[some "a1", some "a2"], "th-1", true, "hello!"⟩

/-- The i-th inbound user message of the long conversation. -/
def userMsg (i : Nat) : Donna.Message := ⟨"c", "+15550000000", "hi", "u" ++ toString i⟩

/-- A conversation holding 30 user-authored messages and none from the bot. -/
def db30 : Donna.DB := ⟨(List.range 30).map userMsg, [], []⟩

/-- The next inbound message of that conversation. -/
def turn31 : Donna.Inbound := ⟨"c", "what now", false, "+15550000000", "g-new"⟩

/-- A conversation with one earlier message. -/
def dbOne : Donna.DB := ⟨[⟨"c", "+15550000000", "old", "u0"⟩], [], []⟩

/-- The inbound event that will be delivered twice. -/
def dup : Donna.Inbound := ⟨"c", "hello assistant", false, "+15550000000", "g1"⟩

/-- An inbound message whose body is exactly the activation code. -/
def codeMsg : Donna.Inbound := ⟨"c", "open-sesame", false, "+15550000000", "g9"⟩

/-- An empty store. -/
def dbEmpty : Donna.DB := ⟨[], [], []⟩

/-- An empty store where the sender's subscription is `expired`. -/
def dbExpired : Donna.DB := ⟨[], [], [("+15550000000", "expired")]⟩

/-- The sender's very first message. -/
def firstMsg : Donna.Inbound := ⟨"c", "hi!", false, "+15550000000", "gf"⟩

/-- The database after the inbound message of a turn has been stored. -/
def dbAfterInbound (db : Donna.DB) (m : Donna.Inbound) : Donna.DB :=
  { db with messages := db.messages ++ [⟨m.chat_guid, m.senderAddress, m.text, m.message_guid⟩] }

/-- A concrete capability module matching messages that mention `send`. -/
def modEmail : Alfred.Integration :=
  ⟨"email", fun msg => containsSub msg "send", fun _ _ => "email-handled"⟩

/-- A concrete catch-all capability module (matches everything). -/
def modChat : Alfred.Integration :=
  ⟨"chat", fun _ => true, fun _ _ => "chat-handled"⟩

/-- The two modules in registration order; both match `"send hi"`. -/
def regMods : List Alfred.Integration := [modEmail, modChat]

/-- A memory table with seven `summary` rows and three `user_preference`
rows for conversation `c`, distinct ids and timestamps. -/
def memRows : List Alfred.MemRow :=
  (List.range 7).map (fun i => ⟨i, "c", "summary", "s" ++ toString i, i⟩)
    ++ (List.range 3).map (fun i => ⟨7 + i, "c", "user_preference", "p" ++ toString i, 7 + i⟩)

end Scenario

/-- Helper: the fuelled poll-loop search succeeds within `fuel` checks
exactly when one of the first `fuel` statuses is `"completed"`. -/
theorem pollLoop_isSome_iff (fuel : Nat) (f : Nat → String) :
    (Donna.pollLoop fuel f).isSome ↔ ∃ n, n < fuel ∧ f n = "completed" := by
  induction fuel generalizing f with
  | zero => simp [Donna.pollLoop]
  | succ k ih =>
    by_cases h : f 0 = "completed"
    · simp only [Donna.pollLoop, h, beq_self_eq_true, if_true, Option.isSome_some, true_iff]
      exact ⟨0, Nat.succ_pos k, h⟩
    · have hb : (f 0 == "completed") = false := beq_eq_false_iff_ne.mpr h
      have hmap : (Option.map (fun x => x + 1) (Donna.pollLoop k fun n => f (n + 1))).isSome
          = (Donna.pollLoop k fun n => f (n + 1)).isSome := by
        cases Donna.pollLoop k fun n => f (n + 1) <;> rfl
      simp only [Donna.pollLoop, hb, Bool.false_eq_true, if_false, hmap]
      rw [ih]
      constructor
      · rintro ⟨n, hn, hfn⟩
        exact ⟨n + 1, by omega, hfn⟩
      · rintro ⟨n, hn, hfn⟩
        cases n with
        | zero => exact absurd hfn h
        | succ p => exact ⟨p, by omega, hfn⟩

/-- Claim C4 (amended): the run-status poll loop of
`create_assistant_response` has no timeout and no iteration bound; it
terminates on a status sequence exactly when the sequence eventually
reports `"completed"`.  In particular a run whose terminal status is
`"failed"` or `"expired"` is polled forever. -/
theorem c4_poll_loop_terminates_iff_completed (f : Nat → String) :
    Donna.pollTerminates f ↔ ∃ n, f n = "completed" := by
  constructor
  · rintro ⟨fuel, h⟩
    obtain ⟨n, _, hn⟩ := (pollLoop_isSome_iff fuel f).mp h
    exact ⟨n, hn⟩
  · rintro ⟨n, hn⟩
    exact ⟨n + 1, (pollLoop_isSome_iff (n + 1) f).mpr ⟨n, by omega, hn⟩⟩

/-- Claim C4 counterexample: on a run that reports the terminal status
`"failed"` at every check, the poll loop never exits — refuting the claim
that the loop terminates (with a timeout and bounded iteration count) for
every sequence of remote run statuses. -/
theorem c4_counterexample_poll_diverges_on_failed :
    ¬ Donna.pollTerminates Donna.constFailed := by
  rintro ⟨fuel, h⟩
  obtain ⟨n, _, hn⟩ := (pollLoop_isSome_iff fuel Donna.constFailed).mp h
  exact absurd hn (by simp [Donna.constFailed])

/-- Claim C5 (code_bug): `handle_new_message` checks the activation code
before the gate, but the branch calls `save_user_subscription`, a name
`donna/server/handlers.py` never imports.  Evaluating the handler at the
failing input (a message whose body is exactly the activation code): the
turn aborts with a `NameError` after persisting the inbound message — the
subscription is never set to `active`, no confirmation is sent, and the
sender's status afterwards is still not `active`. -/
theorem c5_activation_code_raises_name_error :
    (Donna.handleNewMessage Scenario.cfg Scenario.env Scenario.dbEmpty Scenario.codeMsg).outcome
        = Donna.Outcome.nameError ∧
    (Donna.handleNewMessage Scenario.cfg Scenario.env Scenario.dbEmpty Scenario.codeMsg).effects
        = [] ∧
    (Donna.handleNewMessage Scenario.cfg Scenario.env Scenario.dbEmpty Scenario.codeMsg).db.subs
        = [] ∧
    Donna.checkSubscriptionStatus
        (Donna.handleNewMessage Scenario.cfg Scenario.env Scenario.dbEmpty Scenario.codeMsg).db
        (some "+15550000000") ≠ some "active" := by
  decide

/-- Claim C2 (amended): a redelivery whose `message_guid` is already
stored aborts on the `UNIQUE` constraint of `save_message` before any
send: the handler raises `IntegrityError` (propagating as a server error,
not a no-op success), the database is unchanged, no effect is emitted, and
the number of rows carrying the guid is unchanged. -/
theorem c2_duplicate_delivery_aborts (cfg : Donna.Config) (env : Donna.Env)
    (db : Donna.DB) (m : Donna.Inbound)
    (hme : m.isFromMe = false)
    (hdup : Donna.guidExists db m.message_guid = true) :
    Donna.handleNewMessage cfg env db m = ⟨db, [], Donna.Outcome.integrityError⟩ ∧
    Donna.countByGuid (Donna.handleNewMessage cfg env db m).db m.message_guid
      = Donna.countByGuid db m.message_guid := by
  have h1 : Donna.handleNewMessage cfg env db m = ⟨db, [], Donna.Outcome.integrityError⟩ := by
    unfold Donna.handleNewMessage
    rw [hme]
    simp [Donna.saveMessage, hdup]
  exact ⟨h1, by rw [h1]⟩

/-- Claim C2 witness: the concrete two-delivery scenario discharges the
hypotheses — the second delivery of `dup` aborts with `IntegrityError`,
leaving the store unchanged. -/
theorem c2_duplicate_delivery_aborts_witness :
    (Scenario.dup.isFromMe = false ∧
      Donna.guidExists
        (Donna.handleNewMessage Scenario.cfg Scenario.env Scenario.dbOne Scenario.dup).db
        Scenario.dup.message_guid = true) ∧
    (Donna.handleNewMessage Scenario.cfg Scenario.env
        (Donna.handleNewMessage Scenario.cfg Scenario.env Scenario.dbOne Scenario.dup).db
        Scenario.dup
      = ⟨(Donna.handleNewMessage Scenario.cfg Scenario.env Scenario.dbOne Scenario.dup).db,
         [], Donna.Outcome.integrityError⟩ ∧
     Donna.countByGuid
        (Donna.handleNewMessage Scenario.cfg Scenario.env
          (Donna.handleNewMessage Scenario.cfg Scenario.env Scenario.dbOne Scenario.dup).db
          Scenario.dup).db Scenario.dup.message_guid
      = Donna.countByGuid
          (Donna.handleNewMessage Scenario.cfg Scenario.env Scenario.dbOne Scenario.dup).db
          Scenario.dup.message_guid) :=
  ⟨⟨by decide, by decide⟩,
   c2_duplicate_delivery_aborts Scenario.cfg Scenario.env
     (Donna.handleNewMessage Scenario.cfg Scenario.env Scenario.dbOne Scenario.dup).db
     Scenario.dup (by decide) (by decide)⟩

/-- Claim C2 counterexample: after a first successful delivery, the second
delivery of the identical event is *not* a no-op success — it exits with
`IntegrityError` — although the store does still hold exactly one row for
the guid and the second delivery sends nothing. -/
theorem c2_counterexample_second_delivery_not_noop_success :
    (Donna.handleNewMessage Scenario.cfg Scenario.env
        (Donna.handleNewMessage Scenario.cfg Scenario.env Scenario.dbOne Scenario.dup).db
        Scenario.dup).outcome ≠ Donna.Outcome.ok ∧
    (Donna.handleNewMessage Scenario.cfg Scenario.env
        (Donna.handleNewMessage Scenario.cfg Scenario.env Scenario.dbOne Scenario.dup).db
        Scenario.dup).effects = [] ∧
    Donna.countByGuid
        (Donna.handleNewMessage Scenario.cfg Scenario.env
          (Donna.handleNewMessage Scenario.cfg Scenario.env Scenario.dbOne Scenario.dup).db
          Scenario.dup).db "g1" = 1 := by
  decide

/-- Helper: storing the inbound message increments the conversation's
total message count by one. -/
theorem count_after_inbound (db : Donna.DB) (m : Donna.Inbound) :
    Donna.getTotalMessageCount (Scenario.dbAfterInbound db m) m.chat_guid
      = Donna.getTotalMessageCount db m.chat_guid + 1 := by
  simp [Donna.getTotalMessageCount, Scenario.dbAfterInbound, List.filter_append]

/-- Claim C1 (amended): the subscription gate decides per the code's
`elif` chain — `active` allows unconditionally; `expired` denies and sends
the expiration notice; otherwise the turn is allowed iff the *total*
number of stored messages of the conversation (user- and bot-authored,
including the just-saved inbound message) is below 30, and at 30 or more
the payment prompt is sent instead of proceeding.  The counter is
`get_total_message_count`, not a count of bot-authored messages. -/
theorem c1_gate_decision (cfg : Donna.Config) (env : Donna.Env)
    (db : Donna.DB) (m : Donna.Inbound)
    (hme : m.isFromMe = false)
    (hfresh : Donna.guidExists db m.message_guid = false)
    (hact : pyStrip m.text ≠ cfg.activationCode)
    (hdeact : pyStrip m.text ≠ cfg.deactivationCode) :
    (Donna.checkSubscriptionStatus db (Donna.identityOf m) = some "active" →
      Donna.handleNewMessage cfg env db m
        = Donna.processMessageWithAlfred cfg env (Scenario.dbAfterInbound db m) m
            (Donna.getTotalMessageCount db m.chat_guid == 0)) ∧
    (Donna.checkSubscriptionStatus db (Donna.identityOf m) = some "expired" →
      Donna.handleNewMessage cfg env db m
        = ⟨Scenario.dbAfterInbound db m,
           [Donna.Effect.sendText m.chat_guid cfg.expiredMessage (Donna.takeSend env.sendResults).1],
           Donna.Outcome.ok⟩) ∧
    (Donna.checkSubscriptionStatus db (Donna.identityOf m) ≠ some "active" →
     Donna.checkSubscriptionStatus db (Donna.identityOf m) ≠ some "expired" →
      (30 ≤ Donna.getTotalMessageCount db m.chat_guid + 1 →
        Donna.handleNewMessage cfg env db m
          = ⟨Scenario.dbAfterInbound db m,
             [Donna.Effect.sendText m.chat_guid cfg.paymentMessage (Donna.takeSend env.sendResults).1],
             Donna.Outcome.ok⟩) ∧
      (Donna.getTotalMessageCount db m.chat_guid + 1 < 30 →
        Donna.handleNewMessage cfg env db m
          = Donna.processMessageWithAlfred cfg env (Scenario.dbAfterInbound db m) m
              (Donna.getTotalMessageCount db m.chat_guid == 0))) := by
  have hact' : (pyStrip m.text == cfg.activationCode) = false := beq_eq_false_iff_ne.mpr hact
  have hdeact' : (pyStrip m.text == cfg.deactivationCode) = false := beq_eq_false_iff_ne.mpr hdeact
  have hsubs : Donna.checkSubscriptionStatus (Scenario.dbAfterInbound db m) (Donna.identityOf m)
      = Donna.checkSubscriptionStatus db (Donna.identityOf m) := by
    simp [Donna.checkSubscriptionStatus, Scenario.dbAfterInbound]
  have hcount := count_after_inbound db m
  refine ⟨?_, ?_, ?_⟩
  · intro hst
    rw [← hsubs] at hst
    simp [Donna.handleNewMessage, Donna.saveMessage, hme, hfresh, hact', hdeact',
          Scenario.dbAfterInbound] at hst ⊢
    simp [hst]
  · intro hst
    rw [← hsubs] at hst
    simp [Donna.handleNewMessage, Donna.saveMessage, hme, hfresh, hact', hdeact',
          Scenario.dbAfterInbound] at hst ⊢
    simp [hst]
  · intro hna hne
    rw [← hsubs] at hna hne
    rw [← hcount]
    simp only [Scenario.dbAfterInbound] at hna hne ⊢
    constructor
    · intro hge
      simp [Donna.handleNewMessage, Donna.saveMessage, hme, hfresh, hact', hdeact'] at hna hne ⊢
      rw [if_neg hna, if_neg hne, if_pos hge]
    · intro hlt
      have hlt' : ¬ 30 ≤ Donna.getTotalMessageCount
          { db with messages := db.messages ++ [⟨m.chat_guid, m.senderAddress, m.text, m.message_guid⟩] }
          m.chat_guid := by omega
      simp [Donna.handleNewMessage, Donna.saveMessage, hme, hfresh, hact', hdeact'] at hna hne ⊢
      intro h1
      rw [if_neg hne, if_neg hlt']

/-- Claim C1 witness: a conversation already holding 30 stored messages —
all user-authored — with no subscription row: the hypotheses hold
concretely and the turn is denied with the payment prompt. -/
theorem c1_gate_decision_witness :
    (Scenario.turn31.isFromMe = false ∧
     30 ≤ Donna.getTotalMessageCount Scenario.db30 Scenario.turn31.chat_guid + 1) ∧
    Donna.handleNewMessage Scenario.cfg Scenario.env Scenario.db30 Scenario.turn31
      = ⟨Scenario.dbAfterInbound Scenario.db30 Scenario.turn31,
         [Donna.Effect.sendText Scenario.turn31.chat_guid Scenario.cfg.paymentMessage
            (Donna.takeSend Scenario.env.sendResults).1],
         Donna.Outcome.ok⟩ :=
  ⟨⟨by decide, by decide⟩,
   ((c1_gate_decision Scenario.cfg Scenario.env Scenario.db30 Scenario.turn31
      (by decide) (by decide) (by decide) (by decide)).2.2
      (by decide) (by decide)).1 (by decide)⟩

/-- Claim C1 counterexample: in that same conversation the number of
*bot-authored* messages is 0, strictly below 30, and the sender's status
is neither `active` nor `expired`; the claim (allow iff bot-authored count
is below 30) would allow the turn, yet the code denies it and sends the
payment prompt, invoking no assistant and no welcome flow. -/
theorem c1_counterexample_counts_all_senders :
    Donna.getBotMessageCount (Scenario.dbAfterInbound Scenario.db30 Scenario.turn31) "c" = 0 ∧
    Donna.checkSubscriptionStatus Scenario.db30 (Donna.identityOf Scenario.turn31) = none ∧
    (Donna.handleNewMessage Scenario.cfg Scenario.env Scenario.db30 Scenario.turn31).effects
      = [Donna.Effect.sendText "c" "PAYMENT" (some "a1")] := by
  decide

/-- Claim C10 (amended): when the gate denies a turn because the sender's
status is `expired`, the notice is sent but never persisted: the final
database holds exactly the prior messages plus the inbound message — the
notice appears in no stored row, so it is neither billable usage nor an
audit/history record. -/
theorem c10_expired_notice_sent_not_persisted (cfg : Donna.Config) (env : Donna.Env)
    (db : Donna.DB) (m : Donna.Inbound)
    (hme : m.isFromMe = false)
    (hfresh : Donna.guidExists db m.message_guid = false)
    (hact : pyStrip m.text ≠ cfg.activationCode)
    (hdeact : pyStrip m.text ≠ cfg.deactivationCode)
    (hexp : Donna.checkSubscriptionStatus db (Donna.identityOf m) = some "expired") :
    Donna.handleNewMessage cfg env db m =
      ⟨Scenario.dbAfterInbound db m,
       [Donna.Effect.sendText m.chat_guid cfg.expiredMessage (Donna.takeSend env.sendResults).1],
       Donna.Outcome.ok⟩ := by
  have hact' : (pyStrip m.text == cfg.activationCode) = false := beq_eq_false_iff_ne.mpr hact
  have hdeact' : (pyStrip m.text == cfg.deactivationCode) = false := beq_eq_false_iff_ne.mpr hdeact
  have hsubs : Donna.checkSubscriptionStatus (Scenario.dbAfterInbound db m) (Donna.identityOf m)
      = some "expired" := by
    simpa [Donna.checkSubscriptionStatus, Scenario.dbAfterInbound] using hexp
  simp [Donna.handleNewMessage, Donna.saveMessage, hme, hfresh, hact', hdeact',
        Scenario.dbAfterInbound] at hsubs ⊢
  simp [hsubs]

/-- Claim C10 witness: the concrete expired-subscription conversation
discharges the hypotheses, and the turn ends with exactly the inbound
message stored and the notice only sent. -/
theorem c10_expired_notice_sent_not_persisted_witness :
    (Scenario.firstMsg.isFromMe = false ∧
     Donna.checkSubscriptionStatus Scenario.dbExpired (Donna.identityOf Scenario.firstMsg)
       = some "expired") ∧
    Donna.handleNewMessage Scenario.cfg Scenario.env Scenario.dbExpired Scenario.firstMsg
      = ⟨Scenario.dbAfterInbound Scenario.dbExpired Scenario.firstMsg,
         [Donna.Effect.sendText Scenario.firstMsg.chat_guid Scenario.cfg.expiredMessage
            (Donna.takeSend Scenario.env.sendResults).1],
         Donna.Outcome.ok⟩ :=
  ⟨⟨by decide, by decide⟩,
   c10_expired_notice_sent_not_persisted Scenario.cfg Scenario.env Scenario.dbExpired
     Scenario.firstMsg (by decide) (by decide) (by decide) (by decide) (by decide)⟩

/-- Claim C10 counterexample: for an expired sender the expiration notice
goes out, yet the store afterwards contains no row with the notice body
and no bot-authored row at all — refuting the claim that the notice is
persisted as a message for audit/history. -/
theorem c10_counterexample_notice_not_stored :
    (Donna.handleNewMessage Scenario.cfg Scenario.env Scenario.dbExpired Scenario.firstMsg).effects
      = [Donna.Effect.sendText "c" "EXPIRED" (some "a1")] ∧
    ((Donna.handleNewMessage Scenario.cfg Scenario.env Scenario.dbExpired Scenario.firstMsg).db.messages.filter
        (fun r => r.body == "EXPIRED")).length = 0 ∧
    Donna.getBotMessageCount
      (Donna.handleNewMessage Scenario.cfg Scenario.env Scenario.dbExpired Scenario.firstMsg).db "c" = 0 := by
  decide

/-- Helper: after an `INSERT OR REPLACE` style in-place update, looking up
the key finds the replaced binding. -/
theorem find?_replace_key (l : List (String × String)) (chat tid : String)
    (h : l.any (fun p => p.1 == chat) = true) :
    (l.map (fun p => if p.1 == chat then (chat, tid) else p)).find? (fun p => p.1 == chat)
      = some (chat, tid) := by
  induction l with
  | nil => simp at h
  | cons p l ih =>
    by_cases hp : (p.1 == chat) = true
    · simp [List.find?, hp]
    · simp only [List.any_cons, Bool.or_eq_true] at h
      rcases h with h | h
      · exact absurd h hp
      · simp only [List.map_cons, hp, if_false]
        rw [List.find?_cons_of_neg _ (by simpa using hp)]
        exact ih h

/-- Helper: appending a binding for a key absent from the list makes the
lookup find it. -/
theorem find?_append_fresh_key (l : List (String × String)) (chat tid : String)
    (h : l.any (fun p => p.1 == chat) = false) :
    (l ++ [(chat, tid)]).find? (fun p => p.1 == chat) = some (chat, tid) := by
  induction l with
  | nil => simp [List.find?]
  | cons p l ih =>
    simp only [List.any_cons, Bool.or_eq_false_iff] at h
    rw [List.cons_append, List.find?_cons_of_neg _ (by simp [h.1])]
    exact ih h.2

/-- Helper: after `save_thread_id`, the conversation maps to the saved id. -/
theorem getThreadId_saveThreadId (db : Donna.DB) (chat tid : String) :
    Donna.getThreadId (Donna.saveThreadId db chat tid) chat = some tid := by
  unfold Donna.saveThreadId Donna.getThreadId
  cases h : db.threads.any (fun p => p.1 == chat) with
  | true =>
    simp only [h, if_true]
    rw [find?_replace_key db.threads chat tid h]
    rfl
  | false =>
    simp only [h, Bool.false_eq_true, if_false]
    rw [find?_append_fresh_key db.threads chat tid h]
    rfl

/-- Helper: an association list with no duplicate keys holds at most one
binding per key. -/
theorem assoc_filter_le_one (l : List (String × String)) (chat : String)
    (h : (l.map Prod.fst).Nodup) :
    (l.filter (fun p => p.1 == chat)).length ≤ 1 := by
  induction l with
  | nil => simp
  | cons p l ih =>
    simp only [List.map_cons, List.nodup_cons] at h
    by_cases hp : (p.1 == chat) = true
    · have hchat : p.1 = chat := by simpa using hp
      have hnil : l.filter (fun q => q.1 == chat) = [] := by
        rw [List.filter_eq_nil_iff]
        intro q hq hqc
        have hq1 : q.1 = chat := by simpa using hqc
        have hcm : chat ∈ l.map Prod.fst := hq1 ▸ List.mem_map_of_mem Prod.fst hq
        exact h.1 (by rw [hchat]; exact hcm)
      simp [List.filter_cons, hp, hnil]
    · simp only [List.filter_cons, hp, if_false]
      exact ih h.2

/-- Helper: a successful thread lookup means at least one stored binding. -/
theorem one_le_filter_of_thread_some (db : Donna.DB) (chat t : String)
    (h : Donna.getThreadId db chat = some t) :
    1 ≤ (db.threads.filter (fun p => p.1 == chat)).length := by
  simp only [Donna.getThreadId, Option.map_eq_some'] at h
  obtain ⟨q, hfind, _⟩ := h
  have hmem : q ∈ db.threads := List.mem_of_find?_eq_some hfind
  have hpred := List.find?_some hfind
  exact List.length_pos_of_mem (List.mem_filter.mpr ⟨hmem, hpred⟩)

/-- Helper: `save_thread_id` preserves key uniqueness of the
`conversations` table. -/
theorem saveThreadId_keys_nodup (db : Donna.DB) (chat tid : String)
    (h : (db.threads.map Prod.fst).Nodup) :
    ((Donna.saveThreadId db chat tid).threads.map Prod.fst).Nodup := by
  unfold Donna.saveThreadId
  cases ha : db.threads.any (fun p => p.1 == chat) with
  | true =>
    simp only [ha, if_true]
    have hmm : (db.threads.map (fun p => if (p.1 == chat) = true then (chat, tid) else p)).map Prod.fst
        = db.threads.map Prod.fst := by
      rw [List.map_map]
      apply List.map_congr_left
      intro p _
      by_cases hp : (p.1 == chat) = true
      · simp only [Function.comp_apply, hp, if_true]
        exact ((by simpa using hp : p.1 = chat)).symm
      · simp only [Function.comp_apply]
        rw [if_neg hp]
    exact hmm ▸ h
  | false =>
    simp only [ha, Bool.false_eq_true, if_false]
    rw [List.map_append]
    refine List.Nodup.append h (List.nodup_singleton chat) ?_
    intro a ha1 ha2
    have ha2' : a = chat := by simpa using ha2
    subst ha2'
    simp only [List.any_eq_false] at ha
    obtain ⟨q, hq, hq1⟩ := List.mem_map.mp ha1
    exact ha q hq (by simpa using hq1)

/-- Helper: a failed thread lookup means no binding has the key. -/
theorem threads_any_false_of_none (db : Donna.DB) (chat : String)
    (h : Donna.getThreadId db chat = none) :
    db.threads.any (fun p => p.1 == chat) = false := by
  simp only [Donna.getThreadId, Option.map_eq_none'] at h
  rw [List.find?_eq_none] at h
  simp only [List.any_eq_false]
  exact h

/-- Helper: a failed thread lookup means the key filters to nothing. -/
theorem thread_filter_eq_nil_of_none (db : Donna.DB) (chat : String)
    (h : Donna.getThreadId db chat = none) :
    db.threads.filter (fun p => p.1 == chat) = [] := by
  have ha := threads_any_false_of_none db chat h
  rw [List.filter_eq_nil_iff]
  simp only [List.any_eq_false] at ha
  exact ha

/-- Claim C3 (confirmed): for a conversation with no remote thread, the
fresh thread id is persisted (`save_thread_id`) before any content
submission — in the remote-operation trace the `saveThreadLocal` step
precedes `createMessage`; a conversation with a stored id reuses exactly
that id with no database change; after any turn the stored id equals the
used id, a subsequent turn reuses it verbatim, and the conversation holds
exactly one thread binding (key uniqueness preserved). -/
theorem c3_thread_continuity (db : Donna.DB) (chat newTid newTid2 : String)
    (hnodup : (db.threads.map Prod.fst).Nodup) :
    (Donna.getThreadId db chat = none →
      Donna.assistantThreadTurn db chat newTid
        = (Donna.saveThreadId db chat newTid,
           [Donna.RemoteOp.createThread newTid, Donna.RemoteOp.saveThreadLocal chat newTid,
            Donna.RemoteOp.createMessage newTid, Donna.RemoteOp.createRun newTid], newTid)) ∧
    (∀ t, Donna.getThreadId db chat = some t →
      Donna.assistantThreadTurn db chat newTid
        = (db, [Donna.RemoteOp.retrieveThread t, Donna.RemoteOp.createMessage t,
                Donna.RemoteOp.createRun t], t)) ∧
    (Donna.getThreadId (Donna.assistantThreadTurn db chat newTid).1 chat
       = some (Donna.assistantThreadTurn db chat newTid).2.2) ∧
    (Donna.assistantThreadTurn (Donna.assistantThreadTurn db chat newTid).1 chat newTid2
       = ((Donna.assistantThreadTurn db chat newTid).1,
          [Donna.RemoteOp.retrieveThread (Donna.assistantThreadTurn db chat newTid).2.2,
           Donna.RemoteOp.createMessage (Donna.assistantThreadTurn db chat newTid).2.2,
           Donna.RemoteOp.createRun (Donna.assistantThreadTurn db chat newTid).2.2],
          (Donna.assistantThreadTurn db chat newTid).2.2)) ∧
    (((Donna.assistantThreadTurn db chat newTid).1.threads.filter (fun p => p.1 == chat)).length
       = 1) ∧
    (((Donna.assistantThreadTurn db chat newTid).1.threads.map Prod.fst).Nodup) := by
  have h3 : Donna.getThreadId (Donna.assistantThreadTurn db chat newTid).1 chat
      = some (Donna.assistantThreadTurn db chat newTid).2.2 := by
    cases hg : Donna.getThreadId db chat with
    | none =>
      simp only [Donna.assistantThreadTurn, hg]
      exact getThreadId_saveThreadId db chat newTid
    | some t =>
      simp only [Donna.assistantThreadTurn, hg]
  refine ⟨?_, ?_, h3, ?_, ?_, ?_⟩
  · intro hg
    simp [Donna.assistantThreadTurn, hg]
  · intro t hg
    simp [Donna.assistantThreadTurn, hg]
  · set r := Donna.assistantThreadTurn db chat newTid with hr
    simp [Donna.assistantThreadTurn, h3]
  · cases hg : Donna.getThreadId db chat with
    | none =>
      have ha := threads_any_false_of_none db chat hg
      have hnil := thread_filter_eq_nil_of_none db chat hg
      simp only [Donna.assistantThreadTurn, hg, Donna.saveThreadId, ha, Bool.false_eq_true,
                 if_false]
      rw [List.filter_append, hnil]
      simp
    | some t =>
      simp only [Donna.assistantThreadTurn, hg]
      exact Nat.le_antisymm (assoc_filter_le_one db.threads chat hnodup)
        (one_le_filter_of_thread_some db chat t hg)
  · cases hg : Donna.getThreadId db chat with
    | none =>
      simp only [Donna.assistantThreadTurn, hg]
      exact saveThreadId_keys_nodup db chat newTid hnodup
    | some t =>
      simp only [Donna.assistantThreadTurn, hg]
      exact hnodup

/-- Claim C3 witness: starting from the empty store, the first turn of
conversation `c` persists and then reports thread `th-1`. -/
theorem c3_thread_continuity_witness :
    (Scenario.dbEmpty.threads.map Prod.fst).Nodup ∧
    Donna.getThreadId (Donna.assistantThreadTurn Scenario.dbEmpty "c" "th-1").1 "c"
      = some (Donna.assistantThreadTurn Scenario.dbEmpty "c" "th-1").2.2 :=
  ⟨by decide, (c3_thread_continuity Scenario.dbEmpty "c" "th-1" "th-2" (by decide)).2.2.1⟩

/-- Claim C6 (amended): every extraction task returns normally on every
input (the catch-all `try/except` blocks never propagate), and writes
nothing when the provider call raises; entity extraction also writes
nothing on malformed structured output; but sentiment extraction, on
malformed structured output, substitutes the neutral fallback dictionary
and *does* write a `sentiment` memory record rather than degrading to a
no-op.  Nothing is ever surfaced to the user and the turn never fails. -/
theorem c6_extraction_failures_silent (llmS llmE llmP llmSum : Except Unit String)
    (parseS : String → Option Alfred.SentimentData)
    (parseE : String → Option (List (List (String × String))))
    (now msg : String) (hist : Bool) :
    ((∃ ws, Alfred.analyzeUserSentiment llmS parseS now msg = Except.ok ws) ∧
     (∃ ws, Alfred.extractEntities llmE parseE msg = Except.ok ws) ∧
     (∃ ws, Alfred.extractUserPreferences llmP msg = Except.ok ws) ∧
     (∃ ws, Alfred.createConversationSummary llmSum hist = Except.ok ws)) ∧
    (llmS = Except.error () → Alfred.analyzeUserSentiment llmS parseS now msg = Except.ok []) ∧
    (llmE = Except.error () → Alfred.extractEntities llmE parseE msg = Except.ok []) ∧
    (llmP = Except.error () → Alfred.extractUserPreferences llmP msg = Except.ok []) ∧
    (llmSum = Except.error () → Alfred.createConversationSummary llmSum hist = Except.ok []) ∧
    (∀ resp, parseE resp = none →
      Alfred.extractEntities (Except.ok resp) parseE msg = Except.ok []) ∧
    (10 ≤ msg.data.length → ∀ resp, parseS resp = none →
      Alfred.analyzeUserSentiment (Except.ok resp) parseS now msg
        = Except.ok [("sentiment", Alfred.encodeSentiment Alfred.fallbackSentiment)]) := by
  refine ⟨⟨?_, ?_, ?_, ?_⟩, ?_, ?_, ?_, ?_, ?_, ?_⟩
  · unfold Alfred.analyzeUserSentiment
    repeat' split
    all_goals exact ⟨_, rfl⟩
  · unfold Alfred.extractEntities
    repeat' split
    all_goals exact ⟨_, rfl⟩
  · unfold Alfred.extractUserPreferences
    repeat' split
    all_goals exact ⟨_, rfl⟩
  · unfold Alfred.createConversationSummary
    repeat' split
    all_goals exact ⟨_, rfl⟩
  · intro h
    subst h
    unfold Alfred.analyzeUserSentiment
    split <;> rfl
  · intro h
    subst h
    unfold Alfred.extractEntities
    split <;> rfl
  · intro h
    subst h
    unfold Alfred.extractUserPreferences
    split <;> rfl
  · intro h
    subst h
    unfold Alfred.createConversationSummary
    split <;> rfl
  · intro resp hp
    unfold Alfred.extractEntities
    split
    · rfl
    · simp [hp]
  · intro hlen resp hp
    unfold Alfred.analyzeUserSentiment
    rw [if_neg (by omega)]
    simp [hp, Alfred.fallbackSentiment]

/-- Claim C6 counterexample: sentiment extraction on a ≥10-character
message whose model reply fails to parse writes the fallback `sentiment`
record — refuting the claim that no memory record is written for a failed
extraction. -/
theorem c6_counterexample_sentiment_fallback_written :
    Alfred.analyzeUserSentiment (Except.ok "not json") (fun _ => none)
        "2025-01-01 00:00:00" "hello world!"
      = Except.ok [("sentiment", Alfred.encodeSentiment Alfred.fallbackSentiment)] ∧
    Alfred.analyzeUserSentiment (Except.ok "not json") (fun _ => none)
        "2025-01-01 00:00:00" "hello world!"
      ≠ Except.ok [] := by
  constructor
  · rfl
  · intro h
    simp [Alfred.analyzeUserSentiment] at h

/-- Claim C6 witness: concrete instantiation — a 12-character message with
an unparsable model reply yields exactly the fallback sentiment write. -/
theorem c6_extraction_failures_silent_witness :
    10 ≤ ("hello world!").data.length ∧
    Alfred.analyzeUserSentiment (Except.ok "bad") (fun _ => none) "t" "hello world!"
      = Except.ok [("sentiment", Alfred.encodeSentiment Alfred.fallbackSentiment)] :=
  ⟨by decide,
   (c6_extraction_failures_silent (Except.ok "bad") (Except.ok "bad") (Except.ok "bad")
      (Except.ok "bad") (fun _ => none) (fun _ => none) "t" "hello world!"
      true).2.2.2.2.2.2 (by decide) "bad" rfl⟩

/-- Helper: registering a module whose name is new appends it. -/
theorem registerIntegration_fresh (acc : List Alfred.Integration) (i : Alfred.Integration)
    (h : i.name ∉ acc.map Alfred.Integration.name) :
    Alfred.registerIntegration acc i = acc ++ [i] := by
  unfold Alfred.registerIntegration
  rw [if_neg]
  intro hc
  simp only [List.any_eq_true] at hc
  obtain ⟨j, hj, hjn⟩ := hc
  exact h (((by simpa using hjn : j.name = i.name)) ▸ List.mem_map_of_mem Alfred.Integration.name hj)

/-- Helper: folding `register` over modules with pairwise-distinct names
appends them in registration order. -/
theorem buildRegistry_from (acc is : List Alfred.Integration)
    (h : (acc.map Alfred.Integration.name ++ is.map Alfred.Integration.name).Nodup) :
    is.foldl Alfred.registerIntegration acc = acc ++ is := by
  induction is generalizing acc with
  | nil => simp
  | cons i is ih =>
    have hfresh : i.name ∉ acc.map Alfred.Integration.name := by
      intro hmem
      have := List.disjoint_of_nodup_append h
      exact this hmem (by simp)
    rw [List.foldl_cons, registerIntegration_fresh acc i hfresh]
    rw [ih (acc ++ [i])]
    · simp
    · simp only [List.map_append, List.map_cons] at h ⊢
      simpa [List.append_assoc] using h

/-- Helper: `find?` returns the first element of the list satisfying the
predicate. -/
theorem find?_first_capable (l1 : List Alfred.Integration) (i : Alfred.Integration)
    (l2 : List Alfred.Integration) (msg : String)
    (h1 : ∀ j ∈ l1, j.canHandle msg = false) (hi : i.canHandle msg = true) :
    (l1 ++ i :: l2).find? (fun k => k.canHandle msg) = some i := by
  induction l1 with
  | nil => exact List.find?_cons_of_pos l2 hi
  | cons j l1 ih =>
    rw [List.cons_append, List.find?_cons_of_neg _ (by simp [h1 j (by simp)])]
    exact ih (fun k hk => h1 k (by simp [hk]))

/-- Claim C9 (confirmed): with distinct module names (as registered in
`integrations/__init__.py`), the registry preserves registration order;
`process_message` returns the result of the first module in that order
whose `can_handle` is true — so of two matching modules the one
registered earlier always wins — and returns `none` when no module
matches, letting the turn fall through to the assistant path. -/
theorem c9_registry_first_match_wins (is : List Alfred.Integration) (userId : String)
    (hnames : (is.map Alfred.Integration.name).Nodup) :
    Alfred.buildRegistry is = is ∧
    (∀ msg l1 i l2, is = l1 ++ i :: l2 →
      (∀ j ∈ l1, j.canHandle msg = false) → i.canHandle msg = true →
      Alfred.registryProcessMessage (Alfred.buildRegistry is) userId msg
        = some (i.processFn userId msg)) ∧
    (∀ msg, (∀ j ∈ is, j.canHandle msg = false) →
      Alfred.registryProcessMessage (Alfred.buildRegistry is) userId msg = none) := by
  have hb : Alfred.buildRegistry is = is := by
    have := buildRegistry_from [] is (by simpa using hnames)
    simpa [Alfred.buildRegistry] using this
  refine ⟨hb, ?_, ?_⟩
  · intro msg l1 i l2 hsplit h1 hi
    rw [hb, hsplit]
    unfold Alfred.registryProcessMessage Alfred.findIntegrationForMessage
    rw [find?_first_capable l1 i l2 msg h1 hi]
    rfl
  · intro msg hnone
    rw [hb]
    unfold Alfred.registryProcessMessage Alfred.findIntegrationForMessage
    rw [List.find?_eq_none.mpr (fun j hj => by simp [hnone j hj])]
    rfl

/-- Claim C9 witness: a registry of two modules that both match
`"send hi"`; the earlier-registered email module wins. -/
theorem c9_registry_first_match_wins_witness :
    ((Scenario.regMods.map Alfred.Integration.name).Nodup ∧
     Scenario.modEmail.canHandle "send hi" = true ∧
     Scenario.modChat.canHandle "send hi" = true) ∧
    Alfred.registryProcessMessage (Alfred.buildRegistry Scenario.regMods) "user" "send hi"
      = some (Scenario.modEmail.processFn "user" "send hi") :=
  ⟨⟨by decide, by decide, by decide⟩,
   (c9_registry_first_match_wins Scenario.regMods "user" (by decide)).2.1 "send hi"
     [] Scenario.modEmail [Scenario.modChat] rfl (by simp) (by decide)⟩

/-- Helper: the welcome flow always emits exactly the contact-card share
and the welcome send, whatever the provider returns. -/
theorem sendWelcomeMessage_effects (cfg : Donna.Config) (db : Donna.DB) (chat : String)
    (sends : List (Option String)) :
    (Donna.sendWelcomeMessage cfg db chat sends).effects
      = [Donna.Effect.shareContactCard chat,
         Donna.Effect.sendText chat cfg.welcomeMessage (Donna.takeSend sends).1] := by
  unfold Donna.sendWelcomeMessage
  rcases h : Donna.takeSend sends with ⟨g, rest⟩
  cases g with
  | none => simp [h]
  | some guid =>
    simp only [h]
    split <;> rfl

/-- Helper: the `src/`-tree welcome flow never touches the memory table. -/
theorem alfredSendWelcome_memory (st : Alfred.Store) (chat : String)
    (sends : List (Option String)) :
    (Alfred.alfredSendWelcome st chat sends).1.memory = st.memory := by
  unfold Alfred.alfredSendWelcome
  rcases h : Donna.takeSend sends with ⟨g, rest⟩
  cases g with
  | none => simp [h]
  | some guid =>
    simp only [h]
    unfold Alfred.storeSaveMessage
    split <;> rfl

/-- Claim C8 (amended): the first-message check sits inside the processing
path, *after* the subscription gate — the gate is consulted on every turn.
When the sender's status is not `expired` (the count alone can never deny
a first message: it is 1 after saving the inbound), the first message
short-circuits to the welcome flow: contact card and welcome are sent, no
assistant call happens, and (in the `src/`-tree handler) exactly one
initial `summary` memory record is seeded.  An `expired` sender's first
message instead receives the expiration notice and no welcome. -/
theorem c8_first_message_welcome (cfg : Donna.Config) (env : Donna.Env)
    (db : Donna.DB) (m : Donna.Inbound)
    (hme : m.isFromMe = false)
    (hfresh : Donna.guidExists db m.message_guid = false)
    (hact : pyStrip m.text ≠ cfg.activationCode)
    (hdeact : pyStrip m.text ≠ cfg.deactivationCode)
    (hfirst : Donna.getTotalMessageCount db m.chat_guid = 0)
    (hnexp : Donna.checkSubscriptionStatus db (Donna.identityOf m) ≠ some "expired") :
    Donna.handleNewMessage cfg env db m
      = Donna.sendWelcomeMessage cfg (Scenario.dbAfterInbound db m) m.chat_guid env.sendResults ∧
    (∀ c t, Donna.Effect.assistantCall c t ∉ (Donna.handleNewMessage cfg env db m).effects) ∧
    (∀ aenv st chat mtxt, Alfred.processMessageAlfred aenv st chat mtxt true
      = ⟨Alfred.saveMemoryRow (Alfred.alfredSendWelcome st chat aenv.sendResults).1 chat
           "summary" (Alfred.initialSummary aenv.now),
         (Alfred.alfredSendWelcome st chat aenv.sendResults).2, false⟩) ∧
    (∀ aenv st chat mtxt,
      ((Alfred.processMessageAlfred aenv st chat mtxt true).store.memory.filter
          (fun r => r.chat_guid == chat && r.mtype == "summary")).length
        = (st.memory.filter (fun r => r.chat_guid == chat && r.mtype == "summary")).length
            + 1) := by
  have hact' : (pyStrip m.text == cfg.activationCode) = false := beq_eq_false_iff_ne.mpr hact
  have hdeact' : (pyStrip m.text == cfg.deactivationCode) = false := beq_eq_false_iff_ne.mpr hdeact
  have hfirstb : (Donna.getTotalMessageCount db m.chat_guid == 0) = true := by
    simp [hfirst]
  have hproc : Donna.processMessageWithAlfred cfg env (Scenario.dbAfterInbound db m) m
      (Donna.getTotalMessageCount db m.chat_guid == 0)
      = Donna.sendWelcomeMessage cfg (Scenario.dbAfterInbound db m) m.chat_guid env.sendResults := by
    simp [Donna.processMessageWithAlfred, hfirstb]
  have hsubs : Donna.checkSubscriptionStatus (Scenario.dbAfterInbound db m) (Donna.identityOf m)
      = Donna.checkSubscriptionStatus db (Donna.identityOf m) := by
    simp [Donna.checkSubscriptionStatus, Scenario.dbAfterInbound]
  have hmain : Donna.handleNewMessage cfg env db m
      = Donna.sendWelcomeMessage cfg (Scenario.dbAfterInbound db m) m.chat_guid env.sendResults := by
    rw [← hproc]
    by_cases hs : Donna.checkSubscriptionStatus db (Donna.identityOf m) = some "active"
    · rw [← hsubs] at hs
      simp [Donna.handleNewMessage, Donna.saveMessage, hme, hfresh, hact', hdeact',
            Scenario.dbAfterInbound] at hs ⊢
      simp [hs]
    · have hne := hnexp
      rw [← hsubs] at hs hne
      have hcnt : ¬ 30 ≤ Donna.getTotalMessageCount (Scenario.dbAfterInbound db m) m.chat_guid := by
        rw [count_after_inbound, hfirst]
        omega
      simp only [Scenario.dbAfterInbound] at hs hne hcnt ⊢
      simp [Donna.handleNewMessage, Donna.saveMessage, hme, hfresh, hact', hdeact'] at hs hne hcnt ⊢
      intro h1
      rw [if_neg hne, if_neg (by omega)]
  refine ⟨hmain, ?_, ?_, ?_⟩
  · intro c t
    rw [hmain, sendWelcomeMessage_effects]
    simp
  · intro aenv st chat mtxt
    simp [Alfred.processMessageAlfred]
  · intro aenv st chat mtxt
    simp only [Alfred.processMessageAlfred, if_true]
    simp only [Alfred.saveMemoryRow]
    rw [List.filter_append]
    simp [alfredSendWelcome_memory]

/-- Claim C8 witness: the first message of a brand-new conversation with
no subscription row reduces to the welcome flow. -/
theorem c8_first_message_welcome_witness :
    (Donna.getTotalMessageCount Scenario.dbEmpty Scenario.firstMsg.chat_guid = 0 ∧
     Donna.checkSubscriptionStatus Scenario.dbEmpty (Donna.identityOf Scenario.firstMsg)
       ≠ some "expired") ∧
    Donna.handleNewMessage Scenario.cfg Scenario.env Scenario.dbEmpty Scenario.firstMsg
      = Donna.sendWelcomeMessage Scenario.cfg
          (Scenario.dbAfterInbound Scenario.dbEmpty Scenario.firstMsg)
          Scenario.firstMsg.chat_guid Scenario.env.sendResults :=
  ⟨⟨by decide, by decide⟩,
   (c8_first_message_welcome Scenario.cfg Scenario.env Scenario.dbEmpty Scenario.firstMsg
     (by decide) (by decide) (by decide) (by decide) (by decide) (by decide)).1⟩

/-- Claim C8 counterexample: the very first message of a conversation
whose sender's subscription is `expired` does not reach the welcome flow —
the gate fires first and sends the expiration notice — refuting
"regardless of the sender's gate state" and "no billing check occurs". -/
theorem c8_counterexample_expired_first_message_no_welcome :
    Donna.getTotalMessageCount Scenario.dbExpired "c" = 0 ∧
    (Donna.handleNewMessage Scenario.cfg Scenario.env Scenario.dbExpired Scenario.firstMsg).effects
      = [Donna.Effect.sendText "c" "EXPIRED" (some "a1")] ∧
    Donna.Effect.shareContactCard "c"
      ∉ (Donna.handleNewMessage Scenario.cfg Scenario.env Scenario.dbExpired Scenario.firstMsg).effects := by
  decide

/-- Helper: membership is preserved by the sorted insert. -/
theorem mem_insertByTs (a r : Alfred.MemRow) (l : List Alfred.MemRow) :
    a ∈ Alfred.insertByTs r l ↔ a = r ∨ a ∈ l := by
  induction l with
  | nil => simp [Alfred.insertByTs]
  | cons x xs ih =>
    unfold Alfred.insertByTs
    split
    · simp
    · simp only [List.mem_cons, ih]
      tauto

/-- Helper: sorting by decreasing timestamp preserves membership. -/
theorem mem_sortByTsDesc (a : Alfred.MemRow) (l : List Alfred.MemRow) :
    a ∈ Alfred.sortByTsDesc l ↔ a ∈ l := by
  induction l with
  | nil => simp [Alfred.sortByTsDesc]
  | cons x xs ih =>
    unfold Alfred.sortByTsDesc
    rw [mem_insertByTs]
    simp [ih]

/-- Helper: the sort is empty exactly on the empty list. -/
theorem sortByTsDesc_eq_nil_iff (l : List Alfred.MemRow) :
    Alfred.sortByTsDesc l = [] ↔ l = [] := by
  constructor
  · intro h
    cases l with
    | nil => rfl
    | cons x xs =>
      exfalso
      have hx : x ∈ Alfred.sortByTsDesc (x :: xs) := (mem_sortByTsDesc x (x :: xs)).mpr (by simp)
      rw [h] at hx
      exact absurd hx (List.not_mem_nil x)
  · intro h
    subst h
    rfl

/-- Helper: the head of the descending sort carries a maximal timestamp. -/
theorem sortByTsDesc_head_max (l : List Alfred.MemRow) (x : Alfred.MemRow)
    (xs : List Alfred.MemRow) (h : Alfred.sortByTsDesc l = x :: xs) :
    ∀ a ∈ l, a.ts ≤ x.ts := by
  induction l generalizing x xs with
  | nil => simp [Alfred.sortByTsDesc] at h
  | cons b l ih =>
    unfold Alfred.sortByTsDesc at h
    cases hs : Alfred.sortByTsDesc l with
    | nil =>
      have hl : l = [] := (sortByTsDesc_eq_nil_iff l).mp hs
      subst hl
      rw [hs] at h
      unfold Alfred.insertByTs at h
      cases h
      simp
    | cons y ys =>
      rw [hs] at h
      have ihy := ih y ys hs
      unfold Alfred.insertByTs at h
      by_cases hc : y.ts ≤ b.ts
      · rw [if_pos hc] at h
        cases h
        intro a ha
        rcases List.mem_cons.mp ha with rfl | ha
        · exact le_refl _
        · exact le_trans (ihy a ha) hc
      · rw [if_neg hc] at h
        cases h
        intro a ha
        rcases List.mem_cons.mp ha with rfl | ha
        · omega
        · exact ihy a ha

/-- Helper: a `LIMIT k` keep list holds at most `k` ids. -/
theorem keptIds_length_le (rows : List Alfred.MemRow) (chat t : String) (k : Nat) :
    (Alfred.keptIds rows chat t k).length ≤ k := by
  simp only [Alfred.keptIds, List.length_map, List.length_take]
  omega

/-- Helper: after `clean_up_memories`, each (chat, type) holds at most its
keep limit of rows, provided row ids are unique (the table's primary
key). -/
theorem cleanUp_count_le (rows : List Alfred.MemRow) (chat t : String) (maxMem : Nat)
    (hids : (rows.map Alfred.MemRow.id).Nodup) :
    ((Alfred.cleanUpMemories rows chat maxMem).filter
        (fun r => r.chat_guid == chat && r.mtype == t)).length
      ≤ Alfred.keepLimit maxMem (Alfred.distinctTypes rows chat).length t := by
  set k := Alfred.keepLimit maxMem (Alfred.distinctTypes rows chat).length t with hk
  set res := (Alfred.cleanUpMemories rows chat maxMem).filter
      (fun r => r.chat_guid == chat && r.mtype == t) with hres
  have hsub : List.Sublist res rows := by
    refine List.Sublist.trans (List.filter_sublist _) ?_
    simp only [Alfred.cleanUpMemories]
    exact List.filter_sublist _
  have hnd : (res.map Alfred.MemRow.id).Nodup := hids.sublist (hsub.map Alfred.MemRow.id)
  have hsubset : ∀ x ∈ res.map Alfred.MemRow.id, x ∈ Alfred.keptIds rows chat t k := by
    intro x hx
    obtain ⟨r, hr, rfl⟩ := List.mem_map.mp hx
    obtain ⟨hrclean, hpred⟩ := List.mem_filter.mp hr
    have hpred' : r.chat_guid = chat ∧ r.mtype = t := by
      simpa using hpred
    simp only [Alfred.cleanUpMemories] at hrclean
    obtain ⟨hrrows, hcond⟩ := List.mem_filter.mp hrclean
    rw [if_pos (by simp [hpred'.1])] at hcond
    have hidmem : r.id ∈ Alfred.keptIds rows chat r.mtype
        (Alfred.keepLimit maxMem (Alfred.distinctTypes rows chat).length r.mtype) := by
      simpa using hcond
    rw [hpred'.2] at hidmem
    exact hidmem
  have hlen : (res.map Alfred.MemRow.id).length ≤ (Alfred.keptIds rows chat t k).length :=
    (hnd.subperm hsubset).length_le
  have := keptIds_length_le rows chat t k
  rw [List.length_map] at hlen
  omega

/-- Helper: the strictly most recent `summary` row of the chat survives
pruning (it heads the descending sort and 5 ≥ 1). -/
theorem cleanUp_keeps_latest_summary (rows : List Alfred.MemRow) (chat : String)
    (maxMem : Nat) (r : Alfred.MemRow) (hr : r ∈ rows)
    (hrc : r.chat_guid = chat) (hrt : r.mtype = "summary")
    (hmax : ∀ s ∈ rows, s.chat_guid = chat → s.mtype = "summary" → s ≠ r → s.ts < r.ts) :
    r ∈ Alfred.cleanUpMemories rows chat maxMem := by
  have hrmem : r ∈ rows.filter (fun q => q.chat_guid == chat && q.mtype == "summary") := by
    rw [List.mem_filter]
    exact ⟨hr, by simp [hrc, hrt]⟩
  have hmem2 : r ∈ Alfred.sortByTsDesc
      (rows.filter (fun q => q.chat_guid == chat && q.mtype == "summary")) :=
    (mem_sortByTsDesc r _).mpr hrmem
  cases hcase : Alfred.sortByTsDesc
      (rows.filter (fun q => q.chat_guid == chat && q.mtype == "summary")) with
  | nil =>
    rw [hcase] at hmem2
    exact absurd hmem2 (List.not_mem_nil r)
  | cons x xs =>
    have hxmem : x ∈ rows.filter (fun q => q.chat_guid == chat && q.mtype == "summary") := by
      rw [← mem_sortByTsDesc x]
      rw [hcase]
      simp
    have hxr : x = r := by
      by_contra hne
      obtain ⟨hxrows, hxpred⟩ := List.mem_filter.mp hxmem
      have hxp : x.chat_guid = chat ∧ x.mtype = "summary" := by simpa using hxpred
      have h1 : x.ts < r.ts := hmax x hxrows hxp.1 hxp.2 hne
      have h2 : r.ts ≤ x.ts := sortByTsDesc_head_max _ x xs hcase r hrmem
      omega
    subst hxr
    have hid : x.id ∈ Alfred.keptIds rows chat "summary" 5 := by
      unfold Alfred.keptIds
      rw [hcase]
      cases xs with
      | nil => simp
      | cons y ys => simp [List.take]
    unfold Alfred.cleanUpMemories
    rw [List.mem_filter]
    refine ⟨hr, ?_⟩
    rw [if_pos (by simp [hrc])]
    rw [hrt]
    have hlim : Alfred.keepLimit maxMem (Alfred.distinctTypes rows chat).length "summary" = 5 := by
      simp [Alfred.keepLimit]
    rw [hlim]
    simpa using hid

/-- Helper: the handler's pruning tail sets the pruned flag exactly when
the final total message count is a multiple of 50. -/
theorem prune_tail_pruned (st5 : Alfred.Store) (effs : List Donna.Effect) (chat : String) :
    (if Alfred.countMessages st5 chat % 50 == 0 then
        (⟨{ st5 with memory := Alfred.cleanUpMemories st5.memory chat }, effs, true⟩ : Alfred.AResult)
      else ⟨st5, effs, false⟩).pruned
      = (Alfred.countMessages
          (if Alfred.countMessages st5 chat % 50 == 0 then
              (⟨{ st5 with memory := Alfred.cleanUpMemories st5.memory chat }, effs, true⟩ : Alfred.AResult)
            else ⟨st5, effs, false⟩).store chat % 50 == 0) := by
  cases h : (Alfred.countMessages st5 chat % 50 == 0)
  · simp only [Bool.false_eq_true, if_false]
    exact h.symm
  · simp only [if_true]
    exact h.symm

/-- Helper: a non-first turn runs `clean_up_memories` iff the resulting
total message count of the conversation is a multiple of 50. -/
theorem processMessageAlfred_pruned_iff (aenv : Alfred.AEnv) (st : Alfred.Store)
    (chat mtxt : String) :
    (Alfred.processMessageAlfred aenv st chat mtxt false).pruned
      = (Alfred.countMessages (Alfred.processMessageAlfred aenv st chat mtxt false).store chat
          % 50 == 0) := by
  exact prune_tail_pruned _ _ _

/-- Claim C7 (confirmed): pruning runs exactly on turns whose resulting
total message count is a multiple of 50; after `clean_up_memories` a
conversation holds at most 5 `summary` rows and, for every other type, at
most `max_memories / number-of-distinct-types-present` rows (ids unique as
the table's primary key guarantees); the single most recent `summary` row
is never removed. -/
theorem c7_pruning_bounds (rows : List Alfred.MemRow) (chat : String) (maxMem : Nat)
    (hids : (rows.map Alfred.MemRow.id).Nodup) :
    ((Alfred.cleanUpMemories rows chat maxMem).filter
        (fun r => r.chat_guid == chat && r.mtype == "summary")).length ≤ 5 ∧
    (∀ t, t ≠ "summary" →
      ((Alfred.cleanUpMemories rows chat maxMem).filter
          (fun r => r.chat_guid == chat && r.mtype == t)).length
        ≤ maxMem / (Alfred.distinctTypes rows chat).length) ∧
    (∀ r ∈ rows, r.chat_guid = chat → r.mtype = "summary" →
      (∀ s ∈ rows, s.chat_guid = chat → s.mtype = "summary" → s ≠ r → s.ts < r.ts) →
      r ∈ Alfred.cleanUpMemories rows chat maxMem) ∧
    (∀ aenv st mtxt, (Alfred.processMessageAlfred aenv st chat mtxt false).pruned
        = (Alfred.countMessages (Alfred.processMessageAlfred aenv st chat mtxt false).store chat
            % 50 == 0)) := by
  refine ⟨?_, ?_, ?_, ?_⟩
  · have h := cleanUp_count_le rows chat "summary" maxMem hids
    simpa [Alfred.keepLimit] using h
  · intro t ht
    have h := cleanUp_count_le rows chat t maxMem hids
    have hlim : Alfred.keepLimit maxMem (Alfred.distinctTypes rows chat).length t
        = maxMem / (Alfred.distinctTypes rows chat).length := by
      simp [Alfred.keepLimit, beq_eq_false_iff_ne.mpr ht]
    rwa [hlim] at h
  · intro r hr hrc hrt hmax
    exact cleanUp_keeps_latest_summary rows chat maxMem r hr hrc hrt hmax
  · intro aenv st mtxt
    exact processMessageAlfred_pruned_iff aenv st chat mtxt

/-- Claim C7 witness: a concrete table of seven `summary` and three
`user_preference` rows has unique ids, and pruning leaves at most five
summaries. -/
theorem c7_pruning_bounds_witness :
    (Scenario.memRows.map Alfred.MemRow.id).Nodup ∧
    ((Alfred.cleanUpMemories Scenario.memRows "c" 50).filter
        (fun r => r.chat_guid == "c" && r.mtype == "summary")).length ≤ 5 :=
  ⟨by decide, (c7_pruning_bounds Scenario.memRows "c" 50 (by decide)).1⟩
